import Mathlib

/-!
Verification of the voicetypr remote-transcription subsystem.

Shallow embedding of the Rust sources under `src-tauri/src/remote/`
(`client.rs`, `server.rs`, `http.rs`, `transcription.rs`, `settings.rs`,
`lifecycle.rs`) and `src-tauri/src/commands/remote.rs`.  Rust `u64`
arithmetic is modelled as `Nat` reduced modulo `2^64` where overflow can
occur (release-profile wrapping semantics); fallible operations return
`Except String` mirroring `Result<_, String>`; external effects (binding
sockets, temp files, engines, clocks, id generation) are passed in as
explicit oracle parameters so the control flow of the Rust code is kept
exactly.
-/

namespace VoiceTypr

/-! ## client.rs -/

/-- Source of audio for transcription (`TranscriptionSource` in client.rs). -/
inductive TranscriptionSource where
  | LiveRecording
  | Upload
deriving Repr, DecidableEq

/-- Rust `u64` wrap-around: every arithmetic result is reduced mod `2^64`. -/
def u64 (n : Nat) : Nat := n % 2 ^ 64

/-- `calculate_timeout_ms` from client.rs.
LiveRecording: base 30s plus twice the duration, capped at 120s.
Upload: base 60s plus three times the duration, uncapped.
The intermediate `u64` products and sums wrap modulo `2^64`. -/
def calculate_timeout_ms (audio_duration_ms : Nat) (source : TranscriptionSource) : Nat :=
  match source with
  | .LiveRecording =>
      let timeout := u64 (30000 + u64 (audio_duration_ms * 2))
      min timeout 120000
  | .Upload => u64 (60000 + u64 (audio_duration_ms * 3))

/-- `RemoteServerConnection` from client.rs. -/
structure RemoteServerConnection where
  host : String
  port : Nat
  password : Option String
deriving Repr, DecidableEq

/-- `RemoteServerConnection::status_url`. -/
def RemoteServerConnection.status_url (c : RemoteServerConnection) : String :=
  "http://" ++ c.host ++ ":" ++ toString c.port ++ "/api/v1/status"

/-- `RemoteServerConnection::transcribe_url`. -/
def RemoteServerConnection.transcribe_url (c : RemoteServerConnection) : String :=
  "http://" ++ c.host ++ ":" ++ toString c.port ++ "/api/v1/transcribe"

/-! ## server.rs -/

/-- `StatusResponse` from server.rs. -/
structure StatusResponse where
  status : String
  version : String
  model : String
  name : String
deriving Repr, DecidableEq

/-- `TranscribeResponse` from server.rs. -/
structure TranscribeResponse where
  text : String
  duration_ms : Nat
  model : String
deriving Repr, DecidableEq

/-- `ErrorResponse` from server.rs. -/
structure ErrorResponse where
  error : String
deriving Repr, DecidableEq

/-- `RemoteServerConfig` from server.rs. -/
structure RemoteServerConfig where
  port : Nat
  password : Option String
  enabled : Bool
deriving Repr, DecidableEq

/-- `RemoteServerConfig::default`: port 47842, no password, disabled. -/
def RemoteServerConfig.mkDefault : RemoteServerConfig :=
  { port := 47842, password := none, enabled := false }

/-- `RemoteServerConfig::validate_password` from server.rs. -/
def RemoteServerConfig.validate_password (c : RemoteServerConfig)
    (provided : Option String) : Bool :=
  match c.password with
  | none => true
  | some required => (provided.map (fun p => p == required)).getD false

/-! ## http.rs

The warp handlers `handle_status` and `handle_transcribe` are embedded as
pure functions.  The `ServerContext` the handlers consult is represented by
the snapshot of its three getters; the bridge call `ctx.transcribe(&body)`
is an oracle parameter, and the second component of `handle_transcribe`
records whether that bridge call was reached. -/

/-- Snapshot of the `ServerContext` getters used by the handlers. -/
structure ServerContextSnapshot where
  model_name : String
  server_name : String
  password : Option String
deriving Repr, DecidableEq

/-- The JSON body a handler replies with. -/
inductive ResponseBody where
  | statusJson (r : StatusResponse)
  | transcribeJson (r : TranscribeResponse)
  | errorJson (r : ErrorResponse)
deriving Repr, DecidableEq

/-- An HTTP reply: status code plus JSON body. -/
structure HttpReply where
  code : Nat
  body : ResponseBody
deriving Repr, DecidableEq

/-- The `401 {"error":"unauthorized"}` reply both handlers produce. -/
def unauthorizedReply : HttpReply :=
  { code := 401, body := .errorJson ⟨"unauthorized"⟩ }

/-- `handle_status` from http.rs: optional auth check, then a 200 status
reply built from the context getters. -/
def handle_status (ctx : ServerContextSnapshot) (version : String)
    (auth_key : Option String) : HttpReply :=
  match ctx.password with
  | some required_password =>
      match auth_key with
      | some provided =>
          if provided = required_password then
            { code := 200,
              body := .statusJson ⟨"ok", version, ctx.model_name, ctx.server_name⟩ }
          else unauthorizedReply
      | none => unauthorizedReply
  | none =>
      { code := 200,
        body := .statusJson ⟨"ok", version, ctx.model_name, ctx.server_name⟩ }

/-- `handle_transcribe` from http.rs.  `bridge` is the outcome
`ctx.transcribe(&body)` would produce if reached.  The Bool result records
whether the Transcription Bridge was invoked. -/
def handle_transcribe (ctx : ServerContextSnapshot)
    (bridge : Except String TranscribeResponse)
    (auth_key : Option String) (content_type : String) : HttpReply × Bool :=
  match ctx.password with
  | some required_password =>
      match auth_key with
      | some provided =>
          if provided = required_password then
            handle_transcribe_after_auth bridge content_type
          else (unauthorizedReply, false)
      | none => (unauthorizedReply, false)
  | none => handle_transcribe_after_auth bridge content_type
where
  /-- The part of `handle_transcribe` after the auth check: content-type
  validation, then the bridge call. -/
  handle_transcribe_after_auth (bridge : Except String TranscribeResponse)
      (content_type : String) : HttpReply × Bool :=
    if ¬ content_type.startsWith "audio/" then
      ({ code := 415, body := .errorJson ⟨"unsupported_media_type"⟩ }, false)
    else
      match bridge with
      | .ok r => ({ code := 200, body := .transcribeJson r }, true)
      | .error e => ({ code := 500, body := .errorJson ⟨e⟩ }, true)

/-! ## settings.rs -/

/-- `ConnectionStatus` from settings.rs. -/
inductive ConnectionStatus where
  | Unknown
  | Online
  | Offline
  | AuthFailed
  | SelfConnection
deriving Repr, DecidableEq

/-- `SavedConnection` from settings.rs. -/
structure SavedConnection where
  id : String
  host : String
  port : Nat
  password : Option String
  name : Option String
  created_at : Nat
  model : Option String
  status : ConnectionStatus
  last_checked : Nat
deriving Repr, DecidableEq

/-- `SavedConnection::display_name`. -/
def SavedConnection.display_name (c : SavedConnection) : String :=
  c.name.getD (c.host ++ ":" ++ toString c.port)

/-- `RemoteSettings` from settings.rs. -/
structure RemoteSettings where
  server_config : RemoteServerConfig
  saved_connections : List SavedConnection
  active_connection_id : Option String
  sharing_was_active : Bool
deriving Repr, DecidableEq

/-- `RemoteSettings::default`. -/
def RemoteSettings.mkDefault : RemoteSettings :=
  { server_config := RemoteServerConfig.mkDefault
    saved_connections := []
    active_connection_id := none
    sharing_was_active := false }

/-- `RemoteSettings::add_connection`.  The generated id (`generate_id()`,
timestamp plus counter) and the `current_timestamp()` value are external
inputs, passed in as `gen_id` and `now`. -/
def RemoteSettings.add_connection (s : RemoteSettings) (host : String) (port : Nat)
    (password name model : Option String) (gen_id : String) (now : Nat) :
    RemoteSettings × SavedConnection :=
  let saved : SavedConnection :=
    { id := gen_id, host := host, port := port, password := password, name := name
      created_at := now, model := model, status := .Unknown, last_checked := 0 }
  ({ s with saved_connections := s.saved_connections ++ [saved] }, saved)

/-- Helper mirroring `iter_mut().find(..)` followed by field updates: the
first connection whose id matches is updated, the rest are untouched. -/
def update_first_connection (id : String) (status : ConnectionStatus)
    (model : Option String) (now : Nat) :
    List SavedConnection → List SavedConnection
  | [] => []
  | c :: cs =>
      if c.id = id then
        { c with status := status, last_checked := now,
                 model := if model.isSome then model else c.model } :: cs
      else c :: update_first_connection id status model now cs

/-- `RemoteSettings::update_connection_status`.  `now` models
`current_timestamp()`. -/
def RemoteSettings.update_connection_status (s : RemoteSettings) (id : String)
    (status : ConnectionStatus) (model : Option String) (now : Nat) : RemoteSettings :=
  { s with saved_connections :=
      update_first_connection id status model now s.saved_connections }

/-- `RemoteSettings::remove_connection`: `retain` drops every connection
bearing the id; if nothing was dropped the call errors (the caller keeps
the settings unchanged); if the removed id was the active one the active
selection is cleared. -/
def RemoteSettings.remove_connection (s : RemoteSettings) (id : String) :
    Except String RemoteSettings :=
  if (s.saved_connections.filter (fun c => c.id ≠ id)).length =
      s.saved_connections.length then
    .error ("Connection \x27" ++ id ++ "\x27 not found")
  else if s.active_connection_id = some id then
    .ok { s with saved_connections := s.saved_connections.filter (fun c => c.id ≠ id)
                 active_connection_id := none }
  else
    .ok { s with saved_connections := s.saved_connections.filter (fun c => c.id ≠ id) }

/-- `RemoteSettings::get_connection`: first connection with the id. -/
def RemoteSettings.get_connection (s : RemoteSettings) (id : String) :
    Option SavedConnection :=
  s.saved_connections.find? (fun c => c.id = id)

/-- `RemoteSettings::set_active_connection`: a `Some` target must exist,
`None` always succeeds. -/
def RemoteSettings.set_active_connection (s : RemoteSettings) (id : Option String) :
    Except String RemoteSettings :=
  match id with
  | some conn_id =>
      if (s.get_connection conn_id).isNone then
        .error ("Connection \x27" ++ conn_id ++ "\x27 not found")
      else .ok { s with active_connection_id := some conn_id }
  | none => .ok { s with active_connection_id := none }

/-- `RemoteSettings::get_active_connection`. -/
def RemoteSettings.get_active_connection (s : RemoteSettings) : Option SavedConnection :=
  s.active_connection_id.bind (fun id => s.get_connection id)

/-! ### Registry operation sequences (for the C8 invariant)

The four registry-mutating operations named by the claim, with their
external inputs (generated ids, timestamps) carried in the operation.  A
failing operation (`Except.error`) leaves the settings value unchanged,
exactly as the Rust methods return early without mutating `self`. -/

/-- One registry operation with its external inputs. -/
inductive RegistryOp where
  | add (host : String) (port : Nat) (password name model : Option String)
      (gen_id : String) (now : Nat)
  | remove (id : String)
  | setActive (id : Option String)
  | updateStatus (id : String) (status : ConnectionStatus) (model : Option String)
      (now : Nat)

/-- Apply one registry operation; an erroring operation is a no-op on the
settings. -/
def applyRegistryOp (s : RemoteSettings) : RegistryOp → RemoteSettings
  | .add host port password name model gen_id now =>
      (s.add_connection host port password name model gen_id now).1
  | .remove id =>
      match s.remove_connection id with
      | .ok s2 => s2
      | .error _ => s
  | .setActive id =>
      match s.set_active_connection id with
      | .ok s2 => s2
      | .error _ => s
  | .updateStatus id status model now =>
      s.update_connection_status id status model now

/-- Apply a sequence of registry operations in order. -/
def applyRegistryOps (s : RemoteSettings) (ops : List RegistryOp) : RemoteSettings :=
  ops.foldl applyRegistryOp s

/-- Registry invariant: the active id, when set, names a saved connection. -/
def ActiveRefValid (s : RemoteSettings) : Prop :=
  ∀ id, s.active_connection_id = some id → ∃ c ∈ s.saved_connections, c.id = id

/-! ## transcription.rs -/

/-- One consistent snapshot of the three fields of `SharedServerState`
(model name, model path, engine).  In the Rust source each field sits
behind its own `RwLock`. -/
structure SharedStateVal where
  model_name : String
  model_path : String
  engine : String
deriving Repr, DecidableEq

/-- `TranscriptionServerConfig` from transcription.rs. -/
structure TranscriptionServerConfig where
  server_name : String
  password : Option String
  model_path : String
  model_name : String
deriving Repr, DecidableEq

/-! ### Lock-level interleaving model of `SharedServerState`

`SharedServerState` holds `model_name`, `model_path` and `engine` in three
separate `RwLock`s.  Each `read()`/`write()` of one lock is one atomic
action; between two actions of `update_model` other threads may run.  A
schedule is a list of such atomic actions; executing it threads the state
through and appends every value a read returns to the log of the reader. -/

/-- One atomic lock acquisition on `SharedServerState`: a write or a read
of a single field. -/
inductive SharedStateAction where
  | write_name (v : String)
  | write_path (v : String)
  | write_engine (v : String)
  | read_name
  | read_path
  | read_engine
deriving Repr, DecidableEq

/-- Execute one atomic action: writes update the field, reads log the
current value. -/
def exec_action : SharedStateVal × List String → SharedStateAction →
    SharedStateVal × List String
  | (st, log), .write_name v => ({ st with model_name := v }, log)
  | (st, log), .write_path v => ({ st with model_path := v }, log)
  | (st, log), .write_engine v => ({ st with engine := v }, log)
  | (st, log), .read_name => (st, log ++ [st.model_name])
  | (st, log), .read_path => (st, log ++ [st.model_path])
  | (st, log), .read_engine => (st, log ++ [st.engine])

/-- Execute a schedule of atomic actions from an initial state. -/
def exec_schedule (st : SharedStateVal) (sched : List SharedStateAction) :
    SharedStateVal × List String :=
  sched.foldl exec_action (st, [])

/-- `SharedServerState::update_model` decomposed into its three separate
lock acquisitions, in source order: name, then path, then engine. -/
def update_model_actions (model_name model_path engine : String) :
    List SharedStateAction :=
  [.write_name model_name, .write_path model_path, .write_engine engine]

/-- `t` is an interleaving of `l` and `r` (each keeps its order). -/
inductive Interleaving : List SharedStateAction → List SharedStateAction →
    List SharedStateAction → Prop where
  | nil : Interleaving [] [] []
  | left {a : SharedStateAction} {l r t : List SharedStateAction} :
      Interleaving l r t → Interleaving (a :: l) r (a :: t)
  | right {a : SharedStateAction} {l r t : List SharedStateAction} :
      Interleaving l r t → Interleaving l (a :: r) (a :: t)

/-! ### `RealTranscriptionContext::transcribe`

The method is embedded with its external effects as oracle parameters and
an effect record in the result, so "which work happened before the error"
is part of the returned value. -/

/-- Effects performed by one `transcribe` call. -/
structure TranscribeEffects where
  /-- A `NamedTempFile` was created. -/
  temp_file_created : Bool
  /-- A model load was attempted (`TranscriberCache::get_or_create` for
  whisper, `ParakeetManager::load_model` for parakeet). -/
  model_load_attempted : Bool
  /-- Control reached the engine dispatch (`transcribe_with_whisper` or
  `transcribe_with_parakeet` was invoked). -/
  engine_dispatched : Bool
deriving Repr, DecidableEq

/-- No effect was performed. -/
def TranscribeEffects.none : TranscribeEffects :=
  { temp_file_created := false, model_load_attempted := false
    engine_dispatched := false }

/-- Outcomes of the external operations `transcribe` performs, supplied as
oracles. -/
structure TranscribeEnv where
  /-- `NamedTempFile::new()` -/
  temp_create : Except String Unit
  /-- `temp_file.write_all(..)` -/
  temp_write : Except String Unit
  /-- `temp_file.flush()` -/
  temp_flush : Except String Unit
  /-- `self.cache.lock()` -/
  cache_lock : Except String Unit
  /-- `cache.get_or_create(&model_path)` -/
  whisper_load : Except String Unit
  /-- `transcriber.transcribe_with_translation(..)` -/
  whisper_run : Except String String
  /-- `parakeet_manager.load_model(..)` -/
  parakeet_load : Except String Unit
  /-- `parakeet_manager.transcribe(..)` plus the response match -/
  parakeet_run : Except String String
  /-- `start.elapsed().as_millis()` -/
  elapsed_ms : Nat

/-- `RealTranscriptionContext::transcribe_with_whisper`.  The Bool result
records whether the model load (`get_or_create`) was attempted. -/
def transcribe_with_whisper (env : TranscribeEnv) : Except String String × Bool :=
  match env.cache_lock with
  | .error e => (.error ("Failed to acquire cache lock: " ++ e), false)
  | .ok _ =>
      match env.whisper_load with
      | .error e => (.error ("Failed to load Whisper model: " ++ e), true)
      | .ok _ =>
          match env.whisper_run with
          | .error e => (.error ("Whisper transcription failed: " ++ e), true)
          | .ok text => (.ok text, true)

/-- `RealTranscriptionContext::transcribe_with_parakeet`.  The Bool result
records whether `load_model` was attempted. -/
def transcribe_with_parakeet (has_app_handle : Bool) (env : TranscribeEnv) :
    Except String String × Bool :=
  if ¬ has_app_handle then
    (.error "Parakeet transcription requires AppHandle but none was provided", false)
  else
    match env.parakeet_load with
    | .error e => (.error ("Failed to load Parakeet model: " ++ e), true)
    | .ok _ =>
        match env.parakeet_run with
        | .error e => (.error e, true)
        | .ok text => (.ok text, true)

/-- `RealTranscriptionContext::transcribe` from transcription.rs: read the
engine and model name from the shared state, reject empty audio, write the
bytes to a temp file, dispatch on the engine, and build the response. -/
def RealTranscriptionContext.transcribe (st : SharedStateVal)
    (has_app_handle : Bool) (env : TranscribeEnv) (audio_data : List Nat) :
    Except String TranscribeResponse × TranscribeEffects :=
  let engine := st.engine
  let model_name := st.model_name
  if audio_data.isEmpty then
    (.error "Empty audio data", TranscribeEffects.none)
  else
    match env.temp_create with
    | .error e =>
        (.error ("Failed to create temp file: " ++ e), TranscribeEffects.none)
    | .ok _ =>
        match env.temp_write with
        | .error e =>
            (.error ("Failed to write audio data: " ++ e),
             { TranscribeEffects.none with temp_file_created := true })
        | .ok _ =>
            match env.temp_flush with
            | .error e =>
                (.error ("Failed to flush temp file: " ++ e),
                 { TranscribeEffects.none with temp_file_created := true })
            | .ok _ =>
                let dispatched :=
                  if engine = "parakeet" then
                    transcribe_with_parakeet has_app_handle env
                  else
                    transcribe_with_whisper env
                let effects : TranscribeEffects :=
                  { temp_file_created := true
                    model_load_attempted := dispatched.2
                    engine_dispatched := true }
                match dispatched.1 with
                | .error e => (.error e, effects)
                | .ok text =>
                    (.ok { text := text, duration_ms := env.elapsed_ms
                           model := model_name }, effects)

/-! ## lifecycle.rs

`RemoteServerManager` is embedded as a record of its three fields.  The
network is abstracted: the interface enumeration
(`local_ip_address::list_afinet_netifas()`) is a parameter, and the
outcome of each socket bind is given by a `bindOk` oracle.  The warp call
`serve(..).bind_with_graceful_shutdown(addr, ..)` used by `start` panics
when the bind fails (warp offers a non-panicking `try_bind` variant the
source does not use), so a failed bind is modelled as a `panicked`
outcome that aborts the loop; unwinding drops the local shutdown senders,
which signals every listener spawned so far. -/

/-- A local IP address, reduced to the attributes `start` inspects. -/
structure Ip where
  addr : String
  is_loopback : Bool
  is_ipv4 : Bool
deriving Repr, DecidableEq

/-- `Ipv4Addr::LOCALHOST` (127.0.0.1). -/
def loopback_ip : Ip := { addr := "127.0.0.1", is_loopback := true, is_ipv4 := true }

/-- The bind list `start` builds: always loopback first, then every
non-loopback IPv4 interface address, in enumeration order. -/
def compute_bind_ips (interfaces : List (String × Ip)) : List Ip :=
  loopback_ip ::
    (interfaces.filter (fun ni => !ni.2.is_loopback && ni.2.is_ipv4)).map Prod.snd

/-- `ServerHandle` from lifecycle.rs: shutdown senders (one per created
channel), the port, and the bound IPs. -/
structure ServerHandle where
  shutdown_txs : List Ip
  port : Nat
  bound_ips : List Ip
deriving Repr, DecidableEq

/-- `RemoteServerManager` fields. -/
structure RemoteServerManager where
  handle : Option ServerHandle
  config : Option TranscriptionServerConfig
  shared_state : Option SharedStateVal
deriving Repr, DecidableEq

/-- `RemoteServerManager::new`. -/
def RemoteServerManager.new : RemoteServerManager :=
  { handle := none, config := none, shared_state := none }

/-- `RemoteServerManager::is_running`. -/
def RemoteServerManager.is_running (m : RemoteServerManager) : Bool :=
  m.handle.isSome

/-- `RemoteServerManager::get_port`. -/
def RemoteServerManager.get_port (m : RemoteServerManager) : Option Nat :=
  m.handle.map (fun h => h.port)

/-- `RemoteServerManager::stop`: take the handle (if any) and signal its
shutdown channels — signalling has no further observable effect on the
manager — then clear config and shared state.  Both the running and the
already-stopped branch leave every field `None`. -/
def RemoteServerManager.stop (_ : RemoteServerManager) : RemoteServerManager :=
  { handle := none, config := none, shared_state := none }

/-- Outcome of the per-IP bind loop inside `start`. -/
inductive BindLoopResult where
  /-- Every bind succeeded; `txs` are the shutdown senders, `bound` the
  bound IPs (pushed after a successful bind). -/
  | ok (txs bound : List Ip)
  /-- A bind failed, panicking out of `start`.  `txs`/`bound` hold what
  had accumulated; the spawned listeners in `bound` are signalled to shut
  down when the senders are dropped during unwinding. -/
  | panicked (txs bound : List Ip)
deriving Repr, DecidableEq

/-- The `for ip in bind_ips` loop of `start`: create a shutdown channel
(pushing its sender), then bind — a failed bind panics out of the loop. -/
def bind_loop (bindOk : Ip → Bool) :
    List Ip → List Ip → List Ip → BindLoopResult
  | [], txs, bound => .ok txs bound
  | ip :: rest, txs, bound =>
      let txs1 := txs ++ [ip]
      if bindOk ip then bind_loop bindOk rest txs1 (bound ++ [ip])
      else .panicked txs1 bound

/-- Outcome of one `start` call. -/
inductive StartOutcome where
  /-- `start` returned `Ok(())`, leaving the manager in this state. -/
  | ok (m : RemoteServerManager)
  /-- A bind panicked out of `start`.  `m` is the manager state at that
  point (config and shared state were already assigned; no handle was
  stored); `spawned` are the listeners that had been spawned and are
  signalled to shut down as the senders drop. -/
  | panicked (m : RemoteServerManager) (spawned : List Ip)
deriving Repr, DecidableEq

/-- `RemoteServerManager::start` from lifecycle.rs: stop any running
server, store fresh config and shared state, build the bind list, and
run the bind loop.  `start` itself contains no bind error handling and
no `Err` return. -/
def RemoteServerManager.start (m : RemoteServerManager) (port : Nat)
    (password : Option String) (server_name model_path model_name engine : String)
    (interfaces : List (String × Ip)) (bindOk : Ip → Bool) : StartOutcome :=
  let m1 := if m.handle.isSome then m.stop else m
  let config : TranscriptionServerConfig :=
    { server_name := server_name, password := password
      model_path := model_path, model_name := model_name }
  let shared : SharedStateVal :=
    { model_name := model_name, model_path := model_path, engine := engine }
  let m2 := { m1 with config := some config, shared_state := some shared }
  match bind_loop bindOk (compute_bind_ips interfaces) [] [] with
  | .ok txs bound =>
      .ok { m2 with handle := some { shutdown_txs := txs, port := port, bound_ips := bound } }
  | .panicked _ bound => .panicked m2 bound

/-- `RemoteServerManager::update_model`: rewrite the tracked config and
the shared state; the handle (listeners) is untouched. -/
def RemoteServerManager.update_model (m : RemoteServerManager)
    (model_path model_name engine : String) : RemoteServerManager :=
  let m1 :=
    match m.config with
    | some c =>
        { m with config := some { c with model_path := model_path, model_name := model_name } }
    | none => m
  let fresh : SharedStateVal :=
    { model_name := model_name, model_path := model_path, engine := engine }
  match m1.shared_state with
  | some _ => { m1 with shared_state := some fresh }
  | none => m1

/-- `SharingStatus` from lifecycle.rs. -/
structure SharingStatus where
  enabled : Bool
  port : Option Nat
  model_name : Option String
  server_name : Option String
  active_connections : Nat
  password : Option String
deriving Repr, DecidableEq

/-- `RemoteServerManager::get_status`. -/
def RemoteServerManager.get_status (m : RemoteServerManager) : SharingStatus :=
  match m.handle with
  | some h =>
      { enabled := true
        port := some h.port
        model_name := m.config.map (fun c => c.model_name)
        server_name := m.config.map (fun c => c.server_name)
        active_connections := 0
        password := m.config.bind (fun c => c.password) }
  | none =>
      { enabled := false, port := none, model_name := none
        server_name := none, active_connections := 0, password := none }

/-! ## commands/remote.rs -/

/-- Set the id of the last element (`saved_connections.last_mut()`). -/
def set_last_id (id : String) : List SavedConnection → List SavedConnection
  | [] => []
  | [c] => [{ c with id := id }]
  | c :: cs => c :: set_last_id id cs

/-- `update_remote_server` from commands/remote.rs: look up the existing
connection, probe for a model (`probe = some m` is a successful
`test_connection` returning model `m`; `none` keeps the existing cached
model), remove the old entry, re-add with the new values, then overwrite
the generated id of the appended entry with the original id.  `gen_id` and
`now` are the external inputs of `add_connection`. -/
def update_remote_server (s : RemoteSettings) (server_id host : String) (port : Nat)
    (password name : Option String) (probe : Option String) (gen_id : String)
    (now : Nat) : Except String (RemoteSettings × SavedConnection) :=
  match s.get_connection server_id with
  | none => .error ("Server \x27" ++ server_id ++ "\x27 not found")
  | some existing =>
      let model : Option String :=
        match probe with
        | some m => some m
        | none => existing.model
      match s.remove_connection server_id with
      | .error e => .error e
      | .ok s1 =>
          let display_name := name.getD (host ++ ":" ++ toString port)
          let added := s1.add_connection host port password (some display_name) model gen_id now
          let connection := { added.2 with id := server_id }
          let s2 := { added.1 with
                        saved_connections := set_last_id server_id added.1.saved_connections }
          .ok (s2, connection)

/-! ## Serde JSON model (for the `RemoteSettings` round trip)

`RemoteSettings` and its component types carry
`#[derive(Serialize, Deserialize)]`; the encoders below follow the serde
derived behaviour exactly: a struct becomes an object with its fields in
declaration order, `Option` becomes `null`/value, the unit-variant enum
`ConnectionStatus` becomes its variant name as a string, `u16`/`u64`
become JSON numbers (exact — serde_json keeps `u64` precise), and on the
way back a missing `Option` field or a field marked `#[serde(default)]`
falls back to its default. -/

/-- JSON values, with numbers restricted to the naturals actually used by
these types (`u16`/`u64` fields). -/
inductive Json where
  | null
  | bool (b : Bool)
  | num (n : Nat)
  | str (s : String)
  | arr (elems : List Json)
  | obj (fields : List (String × Json))

/-- Field lookup in a JSON object (first binding wins). -/
def Json.lookup (j : Json) (key : String) : Option Json :=
  match j with
  | .obj fields => fields.lookup key
  | _ => none

/-- Serialize an `Option` (serde: `None` is `null`). -/
def encOpt (f : α → Json) : Option α → Json
  | none => .null
  | some a => f a

/-- Decode a JSON string. -/
def decStr : Json → Option String
  | .str s => some s
  | _ => none

/-- Decode a JSON number. -/
def decNum : Json → Option Nat
  | .num n => some n
  | _ => none

/-- Decode a JSON bool. -/
def decBool : Json → Option Bool
  | .bool b => some b
  | _ => none

/-- Decode an optional string field: a missing field or `null` is `None`
(serde defaults absent `Option` fields). -/
def decOptStr : Option Json → Option (Option String)
  | Option.none => some Option.none
  | some .null => some Option.none
  | some (.str s) => some (some s)
  | some _ => Option.none

/-- Serialize `ConnectionStatus` (externally tagged unit variants). -/
def ConnectionStatus.toJson : ConnectionStatus → Json
  | .Unknown => .str "Unknown"
  | .Online => .str "Online"
  | .Offline => .str "Offline"
  | .AuthFailed => .str "AuthFailed"
  | .SelfConnection => .str "SelfConnection"

/-- Deserialize `ConnectionStatus`. -/
def ConnectionStatus.fromJson : Json → Option ConnectionStatus
  | .str "Unknown" => some .Unknown
  | .str "Online" => some .Online
  | .str "Offline" => some .Offline
  | .str "AuthFailed" => some .AuthFailed
  | .str "SelfConnection" => some .SelfConnection
  | _ => none

/-- Serialize `SavedConnection` (fields in declaration order). -/
def SavedConnection.toJson (c : SavedConnection) : Json :=
  .obj [("id", .str c.id), ("host", .str c.host), ("port", .num c.port),
        ("password", encOpt Json.str c.password), ("name", encOpt Json.str c.name),
        ("created_at", .num c.created_at), ("model", encOpt Json.str c.model),
        ("status", c.status.toJson), ("last_checked", .num c.last_checked)]

/-- Deserialize `SavedConnection`; `model`, `status` and `last_checked`
carry `#[serde(default)]`. -/
def SavedConnection.fromJson (j : Json) : Option SavedConnection := do
  let id ← decStr (← j.lookup "id")
  let host ← decStr (← j.lookup "host")
  let port ← decNum (← j.lookup "port")
  let password ← decOptStr (j.lookup "password")
  let name ← decOptStr (j.lookup "name")
  let created_at ← decNum (← j.lookup "created_at")
  let model ← decOptStr (j.lookup "model")
  let status ←
    match j.lookup "status" with
    | Option.none => some ConnectionStatus.Unknown
    | some v => ConnectionStatus.fromJson v
  let last_checked ←
    match j.lookup "last_checked" with
    | Option.none => some 0
    | some v => decNum v
  return { id := id, host := host, port := port, password := password, name := name
           created_at := created_at, model := model, status := status
           last_checked := last_checked }

/-- Serialize `RemoteServerConfig`. -/
def RemoteServerConfig.toJson (c : RemoteServerConfig) : Json :=
  .obj [("port", .num c.port), ("password", encOpt Json.str c.password),
        ("enabled", .bool c.enabled)]

/-- Deserialize `RemoteServerConfig`. -/
def RemoteServerConfig.fromJson (j : Json) : Option RemoteServerConfig := do
  let port ← decNum (← j.lookup "port")
  let password ← decOptStr (j.lookup "password")
  let enabled ← decBool (← j.lookup "enabled")
  return { port := port, password := password, enabled := enabled }

/-- Serialize `RemoteSettings`. -/
def RemoteSettings.toJson (s : RemoteSettings) : Json :=
  .obj [("server_config", s.server_config.toJson),
        ("saved_connections", .arr (s.saved_connections.map SavedConnection.toJson)),
        ("active_connection_id", encOpt Json.str s.active_connection_id),
        ("sharing_was_active", .bool s.sharing_was_active)]

/-- Deserialize `RemoteSettings`; `sharing_was_active` carries
`#[serde(default)]`. -/
def RemoteSettings.fromJson (j : Json) : Option RemoteSettings := do
  let server_config ← RemoteServerConfig.fromJson (← j.lookup "server_config")
  let conns ←
    match j.lookup "saved_connections" with
    | some (.arr xs) => some xs
    | _ => Option.none
  let saved_connections ← conns.mapM SavedConnection.fromJson
  let active_connection_id ← decOptStr (j.lookup "active_connection_id")
  let sharing_was_active ←
    match j.lookup "sharing_was_active" with
    | Option.none => some false
    | some v => decBool v
  return { server_config := server_config, saved_connections := saved_connections
           active_connection_id := active_connection_id
           sharing_was_active := sharing_was_active }

/-! ## Shared helper lemmas -/

/-- If some member fails the predicate, filtering strictly shortens. -/
theorem length_filter_lt_of_mem {α : Type} {p : α → Bool} {l : List α} {c : α}
    (hc : c ∈ l) (hp : p c = false) : (l.filter p).length < l.length := by
  induction l with
  | nil => cases hc
  | cons a as ih =>
      rcases List.mem_cons.mp hc with rfl | h
      · rw [List.filter_cons, if_neg (by simp [hp]), List.length_cons]
        exact Nat.lt_succ_of_le (List.length_filter_le p as)
      · by_cases ha : p a = true
        · rw [List.filter_cons, if_pos ha, List.length_cons, List.length_cons]
          exact Nat.succ_lt_succ (ih h)
        · rw [List.filter_cons, if_neg ha, List.length_cons]
          exact Nat.lt_succ_of_lt (ih h)

/-- The ids of the saved connections are untouched by
`update_first_connection`. -/
theorem update_first_connection_ids (i : String) (st : ConnectionStatus)
    (mo : Option String) (now : Nat) (l : List SavedConnection) :
    (update_first_connection i st mo now l).map SavedConnection.id =
      l.map SavedConnection.id := by
  induction l with
  | nil => rfl
  | cons c cs ih =>
      by_cases h : c.id = i
      · simp [update_first_connection, h]
      · simp [update_first_connection, h, ih]

end VoiceTypr

namespace VoiceTypr

/-! ## Claim C4 — client timeout policy -/

/-- Claim C4 as stated is false at `audio_duration_ms = 2^63`: the `u64`
product `audio_duration_ms * 2` wraps to 0, so the code returns 30000
while the claimed formula `min(30000 + 2*d, 120000)` gives 120000. -/
theorem calculate_timeout_overflow_counterexample :
    calculate_timeout_ms (2 ^ 63) .LiveRecording = 30000 ∧
    min (30000 + 2 * 2 ^ 63) 120000 = 120000 := by
  constructor
  · show min (u64 (30000 + u64 (2 ^ 63 * 2))) 120000 = 30000
    norm_num [u64]
  · norm_num

/-- Claim C4, amended: whenever the `u64` arithmetic does not overflow
(`30000 + 2*d < 2^64` for LiveRecording, `60000 + 3*d < 2^64` for Upload),
the timeout is `min(30000 + 2*d, 120000)` for LiveRecording and the
uncapped `60000 + 3*d` for Upload; the four sample values hold. -/
theorem calculate_timeout_policy (d : Nat)
    (hl : 30000 + 2 * d < 2 ^ 64) (hu : 60000 + 3 * d < 2 ^ 64) :
    calculate_timeout_ms d .LiveRecording = min (30000 + 2 * d) 120000 ∧
    calculate_timeout_ms d .Upload = 60000 + 3 * d ∧
    calculate_timeout_ms 30000 .LiveRecording = 90000 ∧
    calculate_timeout_ms 120000 .LiveRecording = 120000 ∧
    calculate_timeout_ms 60000 .Upload = 240000 ∧
    calculate_timeout_ms 3600000 .Upload = 10860000 := by
  have hd2 : d * 2 < 2 ^ 64 := by omega
  have hd3 : d * 3 < 2 ^ 64 := by omega
  refine ⟨?_, ?_, by decide, by decide, by decide, by decide⟩
  · show min (u64 (30000 + u64 (d * 2))) 120000 = min (30000 + 2 * d) 120000
    rw [u64, u64, Nat.mod_eq_of_lt hd2, Nat.mod_eq_of_lt (by omega)]
    ring_nf
  · show u64 (60000 + u64 (d * 3)) = 60000 + 3 * d
    rw [u64, u64, Nat.mod_eq_of_lt hd3, Nat.mod_eq_of_lt (by omega)]
    ring

/-- Witness for the amended C4 theorem at `d = 30000`. -/
theorem calculate_timeout_policy_witness :
    calculate_timeout_ms 30000 .LiveRecording = min (30000 + 2 * 30000) 120000 ∧
    calculate_timeout_ms 30000 .Upload = 60000 + 3 * 30000 :=
  ⟨(calculate_timeout_policy 30000 (by norm_num) (by norm_num)).1,
   (calculate_timeout_policy 30000 (by norm_num) (by norm_num)).2.1⟩

/-! ## Claim C1 — authentication middleware -/

/-- After the auth check, `handle_transcribe` never produces a 401:
its codes are 415, 200 or 500. -/
theorem transcribe_after_auth_code_ne_401
    (bridge : Except String TranscribeResponse) (content_type : String) :
    (handle_transcribe.handle_transcribe_after_auth bridge content_type).1.code ≠ 401 := by
  unfold handle_transcribe.handle_transcribe_after_auth
  by_cases hct : content_type.startsWith "audio/" <;>
    cases bridge <;> simp [hct]

/-- Claim C1: with no password configured neither handler returns 401;
with password `p` a missing or different `X-VoiceTypr-Key` header is
answered `401 {"error":"unauthorized"}` without invoking the
Transcription Bridge, and a header equal to `p` passes authentication
(the status handler answers 200 and the transcribe handler never 401). -/
theorem auth_middleware (ctx : ServerContextSnapshot) (version : String)
    (auth_key : Option String) (bridge : Except String TranscribeResponse)
    (content_type : String) :
    (ctx.password = none →
       (handle_status ctx version auth_key).code = 200 ∧
       (handle_transcribe ctx bridge auth_key content_type).1.code ≠ 401) ∧
    (∀ p, ctx.password = some p →
       (auth_key ≠ some p →
          handle_status ctx version auth_key = unauthorizedReply ∧
          handle_transcribe ctx bridge auth_key content_type =
            (unauthorizedReply, false)) ∧
       (auth_key = some p →
          (handle_status ctx version auth_key).code = 200 ∧
          (handle_transcribe ctx bridge auth_key content_type).1.code ≠ 401)) := by
  obtain ⟨mn, sn, pw⟩ := ctx
  constructor
  · intro hp
    replace hp : pw = none := hp
    subst hp
    constructor
    · simp [handle_status]
    · have hred : handle_transcribe ⟨mn, sn, none⟩ bridge auth_key content_type =
          handle_transcribe.handle_transcribe_after_auth bridge content_type := by
        simp [handle_transcribe]
      rw [hred]
      exact transcribe_after_auth_code_ne_401 bridge content_type
  · intro p hp
    replace hp : pw = some p := hp
    subst hp
    constructor
    · intro hk
      cases auth_key with
      | none =>
          constructor
          · simp [handle_status]
          · simp [handle_transcribe]
      | some provided =>
          have hne : provided ≠ p := fun h => hk (by rw [h])
          constructor
          · simp [handle_status, hne]
          · simp [handle_transcribe, hne]
    · intro hk
      subst hk
      constructor
      · simp [handle_status]
      · have hred :
            handle_transcribe ⟨mn, sn, some p⟩ bridge (some p) content_type =
              handle_transcribe.handle_transcribe_after_auth bridge content_type := by
          simp [handle_transcribe]
        rw [hred]
        exact transcribe_after_auth_code_ne_401 bridge content_type

/-- Witness for C1: concrete configuration with password "secret123",
wrong header rejected with 401, matching header answered 200. -/
theorem auth_middleware_witness :
    handle_status ⟨"m", "S", some "secret123"⟩ "1.0" (some "wrongpassword") =
      unauthorizedReply ∧
    (handle_status ⟨"m", "S", some "secret123"⟩ "1.0" (some "secret123")).code = 200 ∧
    (handle_status ⟨"m", "S", none⟩ "1.0" none).code = 200 := by
  have h1 := auth_middleware ⟨"m", "S", some "secret123"⟩ "1.0" (some "wrongpassword")
    (.error "e") "audio/wav"
  have h2 := auth_middleware ⟨"m", "S", some "secret123"⟩ "1.0" (some "secret123")
    (.error "e") "audio/wav"
  have h3 := auth_middleware ⟨"m", "S", none⟩ "1.0" none (.error "e") "audio/wav"
  exact ⟨((h1.2 "secret123" rfl).1 (by simp)).1,
         ((h2.2 "secret123" rfl).2 rfl).1,
         (h3.1 rfl).1⟩

/-! ## Claim C5 — empty audio fails fast -/

/-- Claim C5: `transcribe` on empty input returns the error
"Empty audio data" with no temp file created, no model load attempted,
and no engine dispatched. -/
theorem transcribe_empty_audio (st : SharedStateVal) (has_app_handle : Bool)
    (env : TranscribeEnv) :
    RealTranscriptionContext.transcribe st has_app_handle env [] =
      (.error "Empty audio data",
       { temp_file_created := false, model_load_attempted := false
         engine_dispatched := false }) := rfl

/-! ## Claim C6 — stop is idempotent and clears the status -/

/-- The idle sharing status. -/
def idleStatus : SharingStatus :=
  { enabled := false, port := none, model_name := none
    server_name := none, active_connections := 0, password := none }

/-- Claim C6: `stop` is idempotent, is a no-op on a manager that is not
running (observably: running flag, port and status are unchanged), and
after any `stop` the manager reports not running, no port, and the idle
status (enabled false, everything `None`). -/
theorem stop_idempotent (m : RemoteServerManager) :
    m.stop.stop = m.stop ∧
    RemoteServerManager.new.stop = RemoteServerManager.new ∧
    (m.is_running = false →
       m.stop.is_running = m.is_running ∧
       m.stop.get_port = m.get_port ∧
       m.stop.get_status = m.get_status) ∧
    m.stop.is_running = false ∧
    m.stop.get_port = none ∧
    m.stop.get_status = idleStatus := by
  refine ⟨rfl, rfl, ?_, rfl, rfl, rfl⟩
  intro hrun
  cases hh : m.handle with
  | some hdl =>
      rw [RemoteServerManager.is_running, hh] at hrun
      cases hrun
  | none =>
      refine ⟨?_, ?_, ?_⟩ <;>
        simp [RemoteServerManager.stop, RemoteServerManager.is_running,
              RemoteServerManager.get_port, RemoteServerManager.get_status,
              idleStatus, hh]

/-- Witness for C6 at a concrete non-running manager. -/
theorem stop_idempotent_witness :
    RemoteServerManager.new.stop.get_status = RemoteServerManager.new.get_status :=
  ((stop_idempotent RemoteServerManager.new).2.2.1 rfl).2.2

/-! ## Claim C7 — remove_connection -/

/-- Shared helper: removing an id that is present succeeds and yields the
filtered registry, clearing the active selection iff it was that id. -/
theorem remove_connection_found {s : RemoteSettings} {id : String}
    (h : ∃ c ∈ s.saved_connections, c.id = id) :
    s.remove_connection id =
      .ok { server_config := s.server_config
            saved_connections := s.saved_connections.filter (fun c => c.id ≠ id)
            active_connection_id :=
              if s.active_connection_id = some id then none
              else s.active_connection_id
            sharing_was_active := s.sharing_was_active } := by
  obtain ⟨c, hc, hcid⟩ := h
  have hlt : (s.saved_connections.filter (fun c => c.id ≠ id)).length <
      s.saved_connections.length :=
    length_filter_lt_of_mem hc (by simp [hcid])
  rw [RemoteSettings.remove_connection, if_neg (Nat.ne_of_lt hlt)]
  by_cases hact : s.active_connection_id = some id <;> simp [hact]

/-- Claim C7: removing an existing id yields the registry with the
connections bearing that id deleted, clearing the active selection
exactly when it referenced that id (server config and the sharing flag
untouched); removing an unknown id returns a validation error and — as
a registry operation — leaves the settings unchanged. -/
theorem remove_connection_spec (s : RemoteSettings) (id : String) :
    ((∃ c ∈ s.saved_connections, c.id = id) →
       s.remove_connection id =
         .ok { server_config := s.server_config
               saved_connections := s.saved_connections.filter (fun c => c.id ≠ id)
               active_connection_id :=
                 if s.active_connection_id = some id then none
                 else s.active_connection_id
               sharing_was_active := s.sharing_was_active }) ∧
    ((∀ c ∈ s.saved_connections, c.id ≠ id) →
       s.remove_connection id = .error ("Connection \x27" ++ id ++ "\x27 not found") ∧
       applyRegistryOp s (.remove id) = s) := by
  constructor
  · exact remove_connection_found
  · intro hall
    have hfix : s.saved_connections.filter (fun c => c.id ≠ id) =
        s.saved_connections :=
      List.filter_eq_self.mpr (fun c hc => by simp [hall c hc])
    have herr : s.remove_connection id =
        .error ("Connection \x27" ++ id ++ "\x27 not found") := by
      rw [RemoteSettings.remove_connection, if_pos (by rw [hfix])]
    exact ⟨herr, by simp [applyRegistryOp, herr]⟩

/-- Witness for C7: a one-connection registry where that connection is
active; removal empties the list and clears the active id; removing a
missing id errors and changes nothing. -/
theorem remove_connection_spec_witness :
    (let c : SavedConnection :=
      { id := "conn_1_0", host := "h", port := 47842, password := none, name := none
        created_at := 1, model := none, status := .Unknown, last_checked := 0 }
     let s : RemoteSettings :=
      { server_config := RemoteServerConfig.mkDefault, saved_connections := [c]
        active_connection_id := some "conn_1_0", sharing_was_active := false }
     s.remove_connection "conn_1_0" =
       .ok { server_config := s.server_config, saved_connections := []
             active_connection_id := none, sharing_was_active := false } ∧
     applyRegistryOp s (.remove "missing") = s) := by
  constructor
  · have h := (remove_connection_spec
      { server_config := RemoteServerConfig.mkDefault
        saved_connections := [{ id := "conn_1_0", host := "h", port := 47842
                                password := none, name := none, created_at := 1
                                model := none, status := .Unknown, last_checked := 0 }]
        active_connection_id := some "conn_1_0", sharing_was_active := false }
      "conn_1_0").1 ⟨_, List.mem_singleton.mpr rfl, rfl⟩
    rw [h]
    simp
  · exact ((remove_connection_spec _ "missing").2 (by decide)).2

/-! ## Claim C8 — active-selection validation and invariant -/

/-- `set_active_connection` on an existing id commits it. -/
theorem set_active_connection_ok (s : RemoteSettings) (id : String)
    (h : (s.get_connection id).isSome) :
    s.set_active_connection (some id) = .ok { s with active_connection_id := some id } := by
  have h2 : ¬ ((s.get_connection id).isNone = true) := by
    intro hn
    rw [Option.isNone_iff_eq_none] at hn
    rw [hn] at h
    cases h
  rw [RemoteSettings.set_active_connection, if_neg h2]

/-- `set_active_connection` on a missing id errors; as a registry
operation it leaves the settings unchanged. -/
theorem set_active_connection_missing (s : RemoteSettings) (id : String)
    (h : (s.get_connection id).isNone) :
    s.set_active_connection (some id) =
      .error ("Connection \x27" ++ id ++ "\x27 not found") ∧
    applyRegistryOp s (.setActive (some id)) = s := by
  have herr : s.set_active_connection (some id) =
      .error ("Connection \x27" ++ id ++ "\x27 not found") := by
    rw [RemoteSettings.set_active_connection, if_pos h]
  exact ⟨herr, by simp [applyRegistryOp, herr]⟩

/-- Each registry operation preserves the active-reference invariant. -/
theorem activeRefValid_applyOp {s : RemoteSettings} (h : ActiveRefValid s)
    (op : RegistryOp) : ActiveRefValid (applyRegistryOp s op) := by
  cases op with
  | add host port password name model gen_id now =>
      intro aid ha
      simp only [applyRegistryOp, RemoteSettings.add_connection] at ha ⊢
      obtain ⟨c, hc, hcid⟩ := h aid ha
      exact ⟨c, List.mem_append_left _ hc, hcid⟩
  | remove id =>
      intro aid ha
      simp only [applyRegistryOp] at ha ⊢
      rcases hrem : s.remove_connection id with e | s2
      · rw [hrem] at ha
        exact h aid ha
      · rw [hrem] at ha
        rw [RemoteSettings.remove_connection] at hrem
        by_cases hlen : (s.saved_connections.filter (fun c => c.id ≠ id)).length =
            s.saved_connections.length
        · rw [if_pos hlen] at hrem; cases hrem
        · rw [if_neg hlen] at hrem
          by_cases hact : s.active_connection_id = some id
          · rw [if_pos hact] at hrem
            cases hrem
            have ha2 : (none : Option String) = some aid := ha
            cases ha2
          · rw [if_neg hact] at hrem
            cases hrem
            have ha2 : s.active_connection_id = some aid := ha
            obtain ⟨c, hc, hcid⟩ := h aid ha2
            refine ⟨c, List.mem_filter.mpr ⟨hc, ?_⟩, hcid⟩
            have hne : aid ≠ id := fun he => hact (by rw [ha2, he])
            simp [hcid, hne]
  | setActive oid =>
      intro aid ha
      simp only [applyRegistryOp] at ha ⊢
      rcases hset : s.set_active_connection oid with e | s2
      · rw [hset] at ha
        exact h aid ha
      · rw [hset] at ha
        cases oid with
        | none =>
            rw [RemoteSettings.set_active_connection] at hset
            cases hset
            have ha2 : (none : Option String) = some aid := ha
            cases ha2
        | some cid =>
            rw [RemoteSettings.set_active_connection] at hset
            rcases hfind : s.get_connection cid with _ | c
            · rw [if_pos (by rw [hfind]; rfl)] at hset
              cases hset
            · rw [if_neg (by rw [hfind]; simp)] at hset
              cases hset
              have hcmem : c ∈ s.saved_connections :=
                List.mem_of_find?_eq_some hfind
              have hcid : c.id = cid := by
                simpa using List.find?_some hfind
              have ha2 : some cid = some aid := ha
              have heq : cid = aid := by injection ha2
              exact ⟨c, hcmem, by rw [hcid, heq]⟩
  | updateStatus id status model now =>
      intro aid ha
      simp only [applyRegistryOp, RemoteSettings.update_connection_status] at ha ⊢
      obtain ⟨c, hc, hcid⟩ := h aid ha
      have hmap : aid ∈ (update_first_connection id status model now
          s.saved_connections).map SavedConnection.id := by
        rw [update_first_connection_ids]
        exact List.mem_map.mpr ⟨c, hc, hcid⟩
      obtain ⟨c2, hc2, hc2id⟩ := List.mem_map.mp hmap
      exact ⟨c2, hc2, hc2id⟩

/-- Claim C8: setting an unknown active id is rejected and changes
nothing, setting an existing id commits it, setting `None` always
succeeds; and every sequence of registry operations from the default
settings maintains that a set `active_connection_id` references a saved
connection. -/
theorem active_selection_invariant :
    (∀ (s : RemoteSettings) (id : String),
       (s.get_connection id).isNone →
         s.set_active_connection (some id) =
           .error ("Connection \x27" ++ id ++ "\x27 not found") ∧
         applyRegistryOp s (.setActive (some id)) = s) ∧
    (∀ (s : RemoteSettings) (id : String),
       (s.get_connection id).isSome →
         s.set_active_connection (some id) =
           .ok { s with active_connection_id := some id }) ∧
    (∀ s : RemoteSettings,
       s.set_active_connection none = .ok { s with active_connection_id := none }) ∧
    (∀ ops : List RegistryOp,
       ActiveRefValid (applyRegistryOps RemoteSettings.mkDefault ops)) := by
  have hmain : ∀ (ops : List RegistryOp) (s : RemoteSettings),
      ActiveRefValid s → ActiveRefValid (applyRegistryOps s ops) := by
    intro ops
    induction ops with
    | nil => intro s hs; exact hs
    | cons op rest ih =>
        intro s hs
        rw [applyRegistryOps, List.foldl_cons]
        exact ih _ (activeRefValid_applyOp hs op)
  have hbase : ActiveRefValid RemoteSettings.mkDefault := by
    intro aid ha
    cases ha
  exact ⟨set_active_connection_missing, set_active_connection_ok,
         fun s => rfl, fun ops => hmain ops _ hbase⟩

/-- Witness for C8 on a concrete registry. -/
theorem active_selection_invariant_witness :
    (RemoteSettings.mkDefault.set_active_connection (some "nope") =
       .error ("Connection \x27nope\x27 not found")) ∧
    ActiveRefValid (applyRegistryOps RemoteSettings.mkDefault
      [.add "h" 47842 none none none "conn_1_0" 1, .setActive (some "conn_1_0")]) := by
  constructor
  · have h := (active_selection_invariant.1 RemoteSettings.mkDefault "nope" (by decide)).1
    simpa using h
  · exact active_selection_invariant.2.2.2
      [.add "h" 47842 none none none "conn_1_0" 1, .setActive (some "conn_1_0")]

/-! ## Claim C2 — bind policy of `start` -/

/-- When every address binds, the loop succeeds and accumulates them all. -/
theorem bind_loop_all_ok (bindOk : Ip → Bool) (l : List Ip)
    (hall : ∀ ip ∈ l, bindOk ip = true) : ∀ txs bound : List Ip,
    bind_loop bindOk l txs bound = .ok (txs ++ l) (bound ++ l) := by
  induction l with
  | nil => intro txs bound; simp [bind_loop]
  | cons ip rest ih =>
      intro txs bound
      rw [bind_loop]
      simp only [hall ip (List.mem_cons_self ip rest), if_true]
      rw [ih (fun jp hjp => hall jp (List.mem_cons_of_mem ip hjp))]
      simp

/-- If any address in the list fails to bind, the loop never returns
`ok`: the failure panics out instead of being skipped. -/
theorem bind_loop_fail (bindOk : Ip → Bool) (l : List Ip)
    (hex : ∃ ip ∈ l, bindOk ip = false) : ∀ txs bound t2 b2 : List Ip,
    bind_loop bindOk l txs bound ≠ .ok t2 b2 := by
  induction l with
  | nil =>
      obtain ⟨ip, hmem, _⟩ := hex
      cases hmem
  | cons ip rest ih =>
      intro txs bound t2 b2 hok
      obtain ⟨jp, hjp, hjf⟩ := hex
      rcases List.mem_cons.mp hjp with rfl | hmem
      · rw [bind_loop] at hok
        simp [hjf] at hok
      · by_cases hip : bindOk ip = true
        · rw [bind_loop] at hok
          simp only [hip, if_true] at hok
          exact ih ⟨jp, hmem, hjf⟩ _ _ _ _ hok
        · rw [bind_loop] at hok
          simp [hip] at hok

/-- Claim C2, amended: `start` contains no per-interface bind error
handling.  If the loopback bind fails (loopback is always bound first) the
call panics with no listener spawned and no handle stored — nothing is
left running, but no `Err` is returned.  If every bind succeeds, `start`
returns `Ok` with every address bound.  If ANY bind fails — loopback or
not — `start` panics instead of skipping that interface: it never
succeeds on the remaining interfaces. -/
theorem start_bind_policy (m : RemoteServerManager) (port : Nat)
    (password : Option String) (server_name model_path model_name engine : String)
    (interfaces : List (String × Ip)) (bindOk : Ip → Bool) :
    (bindOk loopback_ip = false →
       ∃ m2, m.start port password server_name model_path model_name engine
           interfaces bindOk = .panicked m2 [] ∧ m2.handle = none) ∧
    ((∀ ip ∈ compute_bind_ips interfaces, bindOk ip = true) →
       ∃ m2, m.start port password server_name model_path model_name engine
           interfaces bindOk = .ok m2 ∧
         m2.handle = some { shutdown_txs := compute_bind_ips interfaces
                            port := port
                            bound_ips := compute_bind_ips interfaces }) ∧
    ((∃ ip ∈ compute_bind_ips interfaces, bindOk ip = false) →
       ∀ m2, m.start port password server_name model_path model_name engine
           interfaces bindOk ≠ .ok m2) := by
  refine ⟨?_, ?_, ?_⟩
  · intro hfail
    refine ⟨{ handle := none
              config := some { server_name := server_name, password := password
                               model_path := model_path, model_name := model_name }
              shared_state := some { model_name := model_name
                                     model_path := model_path, engine := engine } },
            ?_, rfl⟩
    rw [RemoteServerManager.start, compute_bind_ips, bind_loop]
    cases hh : m.handle <;> simp [hfail, hh, RemoteServerManager.stop]
  · intro hall
    rw [RemoteServerManager.start]
    rw [bind_loop_all_ok bindOk _ hall [] []]
    exact ⟨_, rfl, rfl⟩
  · intro hex m2 hok
    rw [RemoteServerManager.start] at hok
    cases hloop : bind_loop bindOk (compute_bind_ips interfaces) [] [] with
    | ok txs bound => exact bind_loop_fail bindOk _ hex [] [] txs bound hloop
    | panicked txs bound =>
        rw [hloop] at hok
        cases hok

/-- Witness for the amended C2 theorem: two concrete oracles — one where
every bind succeeds and start returns `Ok`, one where the loopback bind
fails and start panics with nothing spawned. -/
theorem start_bind_policy_witness :
    (∃ m2, RemoteServerManager.new.start 47842 none "S" "/m.bin" "m" "whisper"
        [] (fun _ => true) = .ok m2 ∧
      m2.handle = some { shutdown_txs := [loopback_ip], port := 47842
                         bound_ips := [loopback_ip] }) ∧
    (∃ m2, RemoteServerManager.new.start 47842 none "S" "/m.bin" "m" "whisper"
        [] (fun _ => false) = .panicked m2 [] ∧ m2.handle = none) := by
  constructor
  · exact (start_bind_policy RemoteServerManager.new 47842 none "S" "/m.bin" "m"
      "whisper" [] (fun _ => true)).2.1 (fun ip _ => rfl)
  · exact (start_bind_policy RemoteServerManager.new 47842 none "S" "/m.bin" "m"
      "whisper" [] (fun _ => false)).1 rfl

/-- Counterexample input for claim C2: one non-loopback interface whose
bind fails while loopback binds fine. -/
def c2_interfaces : List (String × Ip) :=
  [("en0", { addr := "192.168.1.5", is_loopback := false, is_ipv4 := true })]

/-- Counterexample bind oracle: only the loopback address binds. -/
def c2_bindOk : Ip → Bool := fun ip => ip.is_loopback

/-- Claim C2 as stated is false: with the loopback bind succeeding and the
bind of non-loopback interface 192.168.1.5 failing, `start` does not skip
that interface and succeed — it panics out (the already-spawned loopback
listener is shut down as the senders drop), and no `Ok` is returned. -/
theorem start_bind_policy_counterexample :
    RemoteServerManager.new.start 47842 none "Server" "/m.bin" "m" "whisper"
        c2_interfaces c2_bindOk =
      .panicked
        { handle := none
          config := some { server_name := "Server", password := none
                           model_path := "/m.bin", model_name := "m" }
          shared_state := some { model_name := "m", model_path := "/m.bin"
                                 engine := "whisper" } }
        [loopback_ip] ∧
    ∀ m2, RemoteServerManager.new.start 47842 none "Server" "/m.bin" "m" "whisper"
        c2_interfaces c2_bindOk ≠ .ok m2 := by
  constructor
  · decide
  · intro m2 hok
    have hpan : RemoteServerManager.new.start 47842 none "Server" "/m.bin" "m"
        "whisper" c2_interfaces c2_bindOk =
        StartOutcome.panicked
          { handle := none
            config := some { server_name := "Server", password := none
                             model_path := "/m.bin", model_name := "m" }
            shared_state := some { model_name := "m", model_path := "/m.bin"
                                   engine := "whisper" } }
          [loopback_ip] := by decide
    rw [hpan] at hok
    cases hok

/-! ## Claim C3 — the shared model triple is not replaced atomically -/

/-- The concrete interleaved schedule: the writer takes the name lock and
writes the new name; the reader then reads name and path; the writer
finishes with the path and engine locks. -/
def c3_schedule : List SharedStateAction :=
  [.write_name "model-b", .read_name, .read_path,
   .write_path "/models/b.bin", .write_engine "parakeet"]

/-- Claim C3 is violated by the code: because `update_model` writes the
three fields under three separate `RwLock`s, there is an interleaving of
`update_model("model-b", "/models/b.bin", "parakeet")` with a concurrent
reader (reading name then path, as the transcribe path does) in which the
reader observes the NEW name "model-b" paired with the OLD path
"/models/a.bin" — a pair matching neither the old generation nor the new
one. -/
theorem update_model_torn_read :
    Interleaving (update_model_actions "model-b" "/models/b.bin" "parakeet")
      [.read_name, .read_path] c3_schedule ∧
    (exec_schedule { model_name := "model-a", model_path := "/models/a.bin"
                     engine := "whisper" } c3_schedule).2 =
      ["model-b", "/models/a.bin"] ∧
    ("model-b", "/models/a.bin") ≠ ("model-a", "/models/a.bin") ∧
    ("model-b", "/models/a.bin") ≠ ("model-b", "/models/b.bin") := by
  refine ⟨?_, by decide, by decide, by decide⟩
  exact .left (.right (.right (.left (.left .nil))))

/-! ## Claim C9 — RemoteSettings JSON round trip -/

/-- `ConnectionStatus` serializes and deserializes to itself. -/
theorem connectionStatus_roundtrip (st : ConnectionStatus) :
    ConnectionStatus.fromJson st.toJson = some st := by
  cases st <;> rfl

/-- `SavedConnection` serializes and deserializes to itself. -/
theorem savedConnection_roundtrip (c : SavedConnection) :
    SavedConnection.fromJson c.toJson = some c := by
  obtain ⟨id, host, port, password, name, created_at, model, status, last_checked⟩ := c
  cases password <;> cases name <;> cases model <;> cases status <;> rfl

/-- A list of serialized connections deserializes back element-wise. -/
theorem savedConnection_list_roundtrip (l : List SavedConnection) :
    (l.map SavedConnection.toJson).mapM SavedConnection.fromJson = some l := by
  induction l with
  | nil => rfl
  | cons c cs ih =>
      rw [List.map_cons, List.mapM_cons, savedConnection_roundtrip c, ih]
      rfl

/-- Accumulator version of the list round trip, matching the unfolded
shape of `List.mapM`. -/
theorem savedConnection_mapM_loop (l acc : List SavedConnection) :
    List.mapM.loop SavedConnection.fromJson (l.map SavedConnection.toJson) acc =
      some (acc.reverse ++ l) := by
  induction l generalizing acc with
  | nil => simp [List.mapM.loop]
  | cons c cs ih =>
      simp [List.mapM.loop, savedConnection_roundtrip c, ih]

/-- `RemoteServerConfig` serializes and deserializes to itself. -/
theorem remoteServerConfig_roundtrip (c : RemoteServerConfig) :
    RemoteServerConfig.fromJson c.toJson = some c := by
  obtain ⟨port, password, enabled⟩ := c
  cases password <;> rfl

/-- Claim C9: serializing a `RemoteSettings` value to JSON and
deserializing the result yields the original value, across the server
config, every saved connection with all its fields, the active id and the
sharing flag. -/
theorem remoteSettings_roundtrip (s : RemoteSettings) :
    RemoteSettings.fromJson s.toJson = some s := by
  obtain ⟨sc, conns, active, sharing⟩ := s
  rw [RemoteSettings.toJson, RemoteSettings.fromJson]
  cases active <;>
    simp [Json.lookup, List.lookup, remoteServerConfig_roundtrip,
          savedConnection_mapM_loop, decOptStr, decBool, encOpt]

/-! ## Claim C10 — update_remote_server is remove-then-re-add -/

/-- The id of the last list element is what `set_last_id` wrote. -/
theorem set_last_id_append (i : String) (l : List SavedConnection)
    (c : SavedConnection) :
    set_last_id i (l ++ [c]) = l ++ [{ c with id := i }] := by
  induction l with
  | nil => rfl
  | cons a as ih =>
      cases as with
      | nil => rfl
      | cons b bs =>
          show a :: set_last_id i ((b :: bs) ++ [c]) =
            a :: ((b :: bs) ++ [{ c with id := i }])
          rw [ih]

/-- Claim C10: updating an existing saved connection removes it and
re-appends an entry carrying the updated values, preserving the original
id but moving the entry to the END of the list; the active selection is
cleared iff it pointed at the updated id — it is NOT restored afterwards
(updating the active connection silently drops the active selection). -/
theorem update_remote_server_spec (s : RemoteSettings) (server_id host : String)
    (port : Nat) (password name probe : Option String) (gen_id : String) (now : Nat)
    (existing : SavedConnection)
    (hfind : s.get_connection server_id = some existing) :
    ∃ s2 connection,
      update_remote_server s server_id host port password name probe gen_id now =
        .ok (s2, connection) ∧
      connection =
        { id := server_id, host := host, port := port, password := password
          name := some (name.getD (host ++ ":" ++ toString port))
          created_at := now
          model := match probe with | some m => some m | none => existing.model
          status := .Unknown, last_checked := 0 } ∧
      s2.saved_connections =
        s.saved_connections.filter (fun c => c.id ≠ server_id) ++ [connection] ∧
      s2.active_connection_id =
        (if s.active_connection_id = some server_id then none
         else s.active_connection_id) ∧
      s2.server_config = s.server_config ∧
      s2.sharing_was_active = s.sharing_was_active := by
  have hmem : existing ∈ s.saved_connections := List.mem_of_find?_eq_some hfind
  have hid : existing.id = server_id := by simpa using List.find?_some hfind
  have hrem := remove_connection_found ⟨existing, hmem, hid⟩
  rw [update_remote_server, hfind]
  simp only [hrem]
  refine ⟨_, _, rfl, rfl, ?_, ?_, ?_, ?_⟩ <;>
    simp [RemoteSettings.add_connection, set_last_id_append]

/-- Concrete registry for the C10 witness: one saved connection that is
also the active one. -/
def c10_conn : SavedConnection :=
  { id := "c1", host := "h", port := 47842, password := none, name := none
    created_at := 1, model := some "base", status := .Online, last_checked := 2 }

/-- Concrete settings for the C10 witness. -/
def c10_settings : RemoteSettings :=
  { server_config := RemoteServerConfig.mkDefault, saved_connections := [c10_conn]
    active_connection_id := some "c1", sharing_was_active := false }

/-- Witness for C10: updating the active connection keeps its id at the
end of the list and leaves the active selection cleared. -/
theorem update_remote_server_spec_witness :
    ∃ s2 connection,
      update_remote_server c10_settings "c1" "h2" 1234 none none none "gen" 5 =
        .ok (s2, connection) ∧
      connection =
        { id := "c1", host := "h2", port := 1234, password := none
          name := some "h2:1234", created_at := 5, model := some "base"
          status := .Unknown, last_checked := 0 } ∧
      s2.saved_connections = [connection] ∧
      s2.active_connection_id = none := by
  obtain ⟨s2, connection, h1, h2, h3, h4, _⟩ :=
    update_remote_server_spec c10_settings "c1" "h2" 1234 none none none "gen" 5
      c10_conn rfl
  refine ⟨s2, connection, h1, by rw [h2]; decide, ?_, by rw [h4]; simp [c10_settings]⟩
  rw [h3]
  simp [c10_settings, c10_conn]

end VoiceTypr
